import Mathlib

/-!
Shallow embedding of the `admin_chiro` appointment dashboard.

The embedding covers the two source files:

* `src/lib/whatsapp.js` — the WhatsApp channel adapter (`sendWhatsAppMessage`)
  and the status-transition notifier (`sendStatusUpdateMessage`);
* `src/App.jsx` — the dashboard state (`appointments`, `loading`, `error`,
  `refreshing`), the snapshot refresh (`fetchAppointments`), the status
  update flow (`updateStatus`) and the derived `stats`.

Effectful JavaScript is modelled by explicit parameters and logs:

* the environment credentials (`VITE_WHATSAPP_TOKEN`,
  `VITE_WHATSAPP_PHONE_NUMBER_ID`) become a `WhatsAppEnv` record of
  optional strings, with JavaScript truthiness made explicit (`truthyOpt`);
* the outcome of the single `fetch` call becomes a `TransportOutcome`
  parameter (success payload, non-ok provider payload, or thrown exception),
  and whether a network request was issued at all is returned as an
  `Option NetworkRequest` log;
* `new Date(d).toLocaleDateString()` is host-dependent, so it is abstracted
  as a date-formatting parameter `fmtDate : String → String`;
* the JavaScript `TypeError` raised by `to.replace` when the phone number is
  `null`/`undefined` happens inside the adapter try block; the catch turns it
  into a `success: false` result, modelled by the `none` phone branch.
-/

namespace AdminChiro

/-- JavaScript truthiness of a possibly-absent string: `null`/`undefined`
(`none`) and the empty string are falsy, every other string is truthy. -/
def truthyOpt : Option String → Bool
  | none => false
  | some s => s ≠ ""

/-- An appointment record as stored in the `appointments` table and held in
the dashboard snapshot. `phone` and `preferred_date` may be absent
(`null`/`undefined`). -/
structure Appointment where
  id : Nat
  full_name : String
  phone : Option String
  email : String
  preferred_date : Option String
  location : String
  body_message : String
  status : String
  created_at : String
deriving DecidableEq, Repr

/-- The channel credentials read from the Vite environment in
`src/lib/whatsapp.js`: `VITE_WHATSAPP_TOKEN` and
`VITE_WHATSAPP_PHONE_NUMBER_ID`. -/
structure WhatsAppEnv where
  WHATSAPP_TOKEN : Option String
  PHONE_NUMBER_ID : Option String
deriving DecidableEq, Repr

/-- The outcome of the one `fetch` to the Graph API in `sendWhatsAppMessage`:
an ok response with parsed JSON payload, a non-ok response with parsed error
payload, or a thrown transport exception (network failure, bad JSON). -/
inductive TransportOutcome where
  | ok (data : String)
  | httpError (errorData : String)
  | exn (description : String)
deriving DecidableEq, Repr

/-- The object returned by `sendWhatsAppMessage`:
`{ success, error? , data? }`. -/
structure SendResult where
  success : Bool
  error : Option String := none
  data : Option String := none
deriving DecidableEq, Repr

/-- The POST request to
`https://graph.facebook.com/v18.0/PHONE_NUMBER_ID/messages`: the normalized
destination (the `to` field of the JSON body) and the text body. -/
structure NetworkRequest where
  destination : String
  body : String
deriving DecidableEq, Repr

/-- `to.replace(/\D/g, '')`: strip every non-digit character. -/
def cleanDigits (s : String) : String :=
  String.mk (s.data.filter Char.isDigit)

/-- The phone normalization in `sendWhatsAppMessage`: strip non-digits, then
prepend the region prefix `91` exactly when 10 digits remain
(`cleanPhone.length === 10 ? `91${cleanPhone}` : cleanPhone` in the source,
written here without the template literal). -/
def formatPhone (s : String) : String :=
  let cleanPhone := cleanDigits s
  if cleanPhone.length = 10 then "91" ++ cleanPhone else cleanPhone

/-- Detail carried by the catch branch when the destination is
`null`/`undefined`: `to.replace` raises a `TypeError`, caught by the
surrounding try/catch of `sendWhatsAppMessage`. -/
def nullReplaceTypeError : String :=
  "TypeError: Cannot read properties of null (reading replace)"

/-- `sendWhatsAppMessage(to, message)` from `src/lib/whatsapp.js`.

Result: the returned `{ success, error?, data? }` object, paired with the
network request issued (`none` when no `fetch` was performed).

* missing credentials: return `{ success: false, error: 'Credentials
  missing' }` with no network call;
* `to` absent: `to.replace` throws inside the try block, the catch returns
  `{ success: false, error }` with no network call;
* otherwise the request is sent with the normalized phone, and the three
  transport outcomes map to the three return sites of the source. -/
def sendWhatsAppMessage (env : WhatsAppEnv) (transport : TransportOutcome)
    (toPhone : Option String) (message : String) :
    SendResult × Option NetworkRequest :=
  if !truthyOpt env.WHATSAPP_TOKEN || !truthyOpt env.PHONE_NUMBER_ID then
    ({ success := false, error := some "Credentials missing" }, none)
  else
    match toPhone with
    | none =>
        ({ success := false, error := some nullReplaceTypeError }, none)
    | some toStr =>
        let formattedPhone := formatPhone toStr
        let req : NetworkRequest := { destination := formattedPhone, body := message }
        match transport with
        | .ok data => ({ success := true, data := some data }, some req)
        | .httpError errorData =>
            ({ success := false, error := some errorData }, some req)
        | .exn description =>
            ({ success := false, error := some description }, some req)

/-- The message body computed by the `switch (status)` of
`sendStatusUpdateMessage`, with
`dateStr = preferred_date ? new Date(preferred_date).toLocaleDateString()
: 'the requested date'`. The `default` case returns early with `undefined`,
modelled as `none`. -/
def statusMessage (fmtDate : String → String) (appointment : Appointment)
    (status : String) : Option String :=
  let dateStr :=
    if truthyOpt appointment.preferred_date then
      fmtDate (appointment.preferred_date.getD "")
    else "the requested date"
  if status = "confirmed" then
    some ("Hello " ++ appointment.full_name ++
      ", your appointment with Dr. Vaibbhav Guray on " ++ dateStr ++
      " at our " ++ appointment.location ++
      " center has been CONFIRMED. We look forward to seeing you!")
  else if status = "cancelled" then
    some ("Hello " ++ appointment.full_name ++
      ", we are sorry to inform you that your appointment with Dr. Vaibbhav Guray on "
      ++ dateStr ++ " has been CANCELLED. Please contact us to reschedule.")
  else if status = "completed" then
    some ("Hello " ++ appointment.full_name ++
      ", thank you for visiting Dr. Vaibbhav Guray today! We hope you have a great day. Feel free to contact us for any follow-up concerns.")
  else none

/-- `sendStatusUpdateMessage(appointment, status)` from
`src/lib/whatsapp.js`: render the message for `status`; on the `default`
case return `undefined` (`(none, none)`: no result object, no network call);
otherwise delegate to `sendWhatsAppMessage(phone, message)`. -/
def sendStatusUpdateMessage (env : WhatsAppEnv) (transport : TransportOutcome)
    (fmtDate : String → String) (appointment : Appointment) (status : String) :
    Option SendResult × Option NetworkRequest :=
  match statusMessage fmtDate appointment status with
  | none => (none, none)
  | some message =>
      let sent := sendWhatsAppMessage env transport appointment.phone message
      (some sent.1, sent.2)

/-- The dashboard state of `App.jsx` relevant to refresh and status update:
the local snapshot and the `loading` / `error` / `refreshing` flags. -/
structure AppState where
  appointments : List Appointment
  loading : Bool
  error : Option String
  refreshing : Bool
deriving DecidableEq, Repr

/-- The outcome of `supabase.from('appointments').select('*')...`: either
`{ data, error: null }` (where `data` may itself be `null`, hence the
`data || []` in the source) or `{ error }`, which the source throws and
catches. -/
inductive FetchOutcome where
  | ok (data : Option (List Appointment))
  | err (e : String)
deriving DecidableEq, Repr

/-- `fetchAppointments` from `App.jsx`: sets `refreshing` true, queries the
store; on success replaces the snapshot with `data || []` and clears
`error`; on failure sets the user-facing `error` message; the `finally`
block clears `loading` and `refreshing` on both paths. The function maps
the pre-call state and the query outcome to the post-call state. -/
def fetchAppointments (s : AppState) (outcome : FetchOutcome) : AppState :=
  match outcome with
  | .ok data =>
      { s with appointments := data.getD [], error := none,
               loading := false, refreshing := false }
  | .err _ =>
      { s with error := some "Failed to load appointments. Please try again.",
               loading := false, refreshing := false }

/-- The derived `stats` object of `App.jsx`, computed from the snapshot. -/
structure Stats where
  total : Nat
  pending : Nat
  confirmed : Nat
  completed : Nat
  cancelled : Nat
deriving DecidableEq, Repr

/-- `stats` from `App.jsx`: counts per status over the snapshot. -/
def stats (appointments : List Appointment) : Stats :=
  { total := appointments.length
    pending := (appointments.filter (fun a => a.status = "pending")).length
    confirmed := (appointments.filter (fun a => a.status = "confirmed")).length
    completed := (appointments.filter (fun a => a.status = "completed")).length
    cancelled := (appointments.filter (fun a => a.status = "cancelled")).length }

/-- The status list of the notification guard in `updateStatus`:
`['confirmed', 'cancelled', 'completed'].includes(newStatus)`. -/
def notifyWorthy : List String := ["confirmed", "cancelled", "completed"]

/-- Observable outcome of one `updateStatus` call: the resulting snapshot,
whether the store write was attempted, the notifier invocations (pre-update
record and new status), the notifier result when invoked, the network
request issued by the channel adapter, and whether the error alert fired. -/
structure UpdateOutcome where
  snapshot : List Appointment
  writeAttempted : Bool
  notifyCalls : List (Appointment × String)
  notifyResult : Option SendResult
  networkRequest : Option NetworkRequest
  alerted : Bool
deriving DecidableEq, Repr

/-- `updateStatus(id, newStatus)` from `App.jsx` (the notifier-enabled
version): look up the record in the current snapshot, attempt the store
write (its outcome is the `writeError` parameter), on write failure alert
and change nothing, on success patch the matching record's `status` in the
snapshot and — when the record was found and `newStatus` is
notification-worthy — await `sendStatusUpdateMessage` on the pre-update
record. The notifier never throws (its own try/catch), so its result never
reaches the catch branch. -/
def updateStatus (env : WhatsAppEnv) (transport : TransportOutcome)
    (fmtDate : String → String) (appointments : List Appointment)
    (id : Nat) (newStatus : String) (writeError : Option String) :
    UpdateOutcome :=
  let appointment := appointments.find? (fun a => a.id == id)
  match writeError with
  | some _ =>
      { snapshot := appointments, writeAttempted := true, notifyCalls := [],
        notifyResult := none, networkRequest := none, alerted := true }
  | none =>
      let snap := appointments.map (fun apt =>
        if apt.id == id then { apt with status := newStatus } else apt)
      match appointment with
      | some apt =>
          if notifyWorthy.contains newStatus then
            let sent := sendStatusUpdateMessage env transport fmtDate apt newStatus
            { snapshot := snap, writeAttempted := true,
              notifyCalls := [(apt, newStatus)], notifyResult := sent.1,
              networkRequest := sent.2, alerted := false }
          else
            { snapshot := snap, writeAttempted := true, notifyCalls := [],
              notifyResult := none, networkRequest := none, alerted := false }
      | none =>
          { snapshot := snap, writeAttempted := true, notifyCalls := [],
            notifyResult := none, networkRequest := none, alerted := false }

/-! Concrete records used to instantiate the theorems below. -/

/-- A configured channel environment (both credentials truthy). -/
def sampleEnv : WhatsAppEnv :=
  { WHATSAPP_TOKEN := some "TOKEN", PHONE_NUMBER_ID := some "PID" }

/-- A concrete appointment record. -/
def sampleAppointment : Appointment :=
  { id := 1, full_name := "Asha Rao", phone := some "9876543210",
    email := "asha@example.com", preferred_date := some "2024-05-01",
    location := "Hyderabad", body_message := "Back pain",
    status := "pending", created_at := "2024-04-01T10:00:00Z" }

/-- The same record with a different preferred date and nothing else
changed. -/
def sampleAppointmentLaterDate : Appointment :=
  { sampleAppointment with preferred_date := some "2024-06-15" }

/-- A record whose phone number is absent (`null`/`undefined`). -/
def sampleAppointmentNoPhone : Appointment :=
  { sampleAppointment with id := 2, phone := none }

/-! Lemmas about digit filtering, used for the normalization results. -/

/-- Filtering digits is idempotent. -/
theorem filter_isDigit_idem (l : List Char) :
    (l.filter Char.isDigit).filter Char.isDigit = l.filter Char.isDigit := by
  induction l with
  | nil => rfl
  | cons c t ih =>
      by_cases h : Char.isDigit c <;> simp [List.filter_cons, h, ih]

/-- Every character surviving the digit filter is a digit. -/
theorem all_isDigit_filter (l : List Char) :
    (l.filter Char.isDigit).all Char.isDigit = true := by
  induction l with
  | nil => rfl
  | cons c t ih =>
      by_cases h : Char.isDigit c <;> simp [List.filter_cons, h, ih]

/-- C1: a successful `updateStatus(id, newStatus)` attempts the store write,
patches exactly the matching record's `status` field in the local snapshot,
and invokes the notifier exactly once with the pre-update record and the new
status precisely when the record was found locally before the write and
`newStatus` is one of confirmed/cancelled/completed; when the id is not
found locally the write is still attempted and no notification occurs. -/
theorem updateStatus_success_patches_and_notifies
    (env : WhatsAppEnv) (transport : TransportOutcome)
    (fmtDate : String → String) (appointments : List Appointment)
    (id : Nat) (newStatus : String) :
    (updateStatus env transport fmtDate appointments id newStatus none).writeAttempted = true ∧
    (updateStatus env transport fmtDate appointments id newStatus none).snapshot =
      appointments.map (fun apt =>
        if apt.id == id then { apt with status := newStatus } else apt) ∧
    (updateStatus env transport fmtDate appointments id newStatus none).notifyCalls =
      (match appointments.find? (fun a => a.id == id) with
       | some apt0 =>
           if newStatus ∈ notifyWorthy then [(apt0, newStatus)] else []
       | none => []) := by
  refine ⟨?_, ?_, ?_⟩ <;>
    cases hf : appointments.find? (fun a => a.id == id) <;>
      by_cases hw : newStatus ∈ notifyWorthy <;>
        simp [updateStatus, hf, hw]

/-- C2: the notification step is isolated — the snapshot produced by
`updateStatus`, the attempted store write and the alert behaviour are
identical for every channel environment, every transport outcome and every
date formatter, i.e. the notifier's result (delivered, provider rejection,
or transport exception) never feeds back into the committed state. -/
theorem updateStatus_notifier_isolation
    (env env2 : WhatsAppEnv) (transport transport2 : TransportOutcome)
    (fmtDate fmtDate2 : String → String) (appointments : List Appointment)
    (id : Nat) (newStatus : String) (writeError : Option String) :
    (updateStatus env transport fmtDate appointments id newStatus writeError).snapshot =
      (updateStatus env2 transport2 fmtDate2 appointments id newStatus writeError).snapshot ∧
    (updateStatus env transport fmtDate appointments id newStatus writeError).writeAttempted =
      (updateStatus env2 transport2 fmtDate2 appointments id newStatus writeError).writeAttempted ∧
    (updateStatus env transport fmtDate appointments id newStatus writeError).alerted =
      (updateStatus env2 transport2 fmtDate2 appointments id newStatus writeError).alerted := by
  cases writeError <;>
    cases hf : appointments.find? (fun a => a.id == id) <;>
      by_cases hw : newStatus ∈ notifyWorthy <;>
        simp [updateStatus, hf, hw]

/-- C3 counterexample: for `status = "pending"` the notifier returns
`undefined` (no result object at all) and performs no send — not a result
object with `delivered = false` and detail `"not notification-worthy"` as
the claim states. -/
theorem sendStatusUpdate_pending_no_result :
    sendStatusUpdateMessage sampleEnv (.ok "sent") (fun d => d)
      sampleAppointment "pending" = (none, none) := rfl

/-- C3 (amended): for every status outside confirmed/cancelled/completed the
notifier returns immediately with no result object (`undefined`) and no send
to the channel adapter occurs. -/
theorem sendStatusUpdate_not_worthy_noop
    (env : WhatsAppEnv) (transport : TransportOutcome)
    (fmtDate : String → String) (appointment : Appointment) (status : String)
    (h : status ∉ notifyWorthy) :
    sendStatusUpdateMessage env transport fmtDate appointment status =
      (none, none) := by
  simp [notifyWorthy] at h
  obtain ⟨h1, h2, h3⟩ := h
  simp [sendStatusUpdateMessage, statusMessage, h1, h2, h3]

/-- C3 witness: the amended no-op theorem at a concrete non-worthy status. -/
theorem sendStatusUpdate_not_worthy_noop_witness :
    sendStatusUpdateMessage sampleEnv (.httpError "bad") (fun d => d)
      sampleAppointment "rescheduled" = (none, none) :=
  sendStatusUpdate_not_worthy_noop _ _ _ _ _ (by decide)

/-- C4 counterexample: the completed template does not interpolate the
preferred date — two records differing only in `preferred_date` render the
identical completed message. -/
theorem statusMessage_completed_ignores_date :
    sampleAppointment.preferred_date ≠ sampleAppointmentLaterDate.preferred_date ∧
    statusMessage (fun d => d) sampleAppointment "completed" =
      statusMessage (fun d => d) sampleAppointmentLaterDate "completed" :=
  ⟨by decide, rfl⟩

/-- C4 (amended): for each of the three notification-worthy statuses the
rendered body is the fixed template for that status — the confirmed template
interpolates name, formatted date (or the fixed placeholder) and location;
the cancelled template interpolates name and formatted date (or placeholder)
but omits the location; the completed template interpolates only the name,
omitting both the date and the location; every other status has no
template. -/
theorem statusMessage_templates
    (fmtDate : String → String) (apt : Appointment) (status : String) :
    statusMessage fmtDate apt status =
      (if status = "confirmed" then
        some ("Hello " ++ apt.full_name ++
          ", your appointment with Dr. Vaibbhav Guray on " ++
          (match apt.preferred_date with
           | some d => if d ≠ "" then fmtDate d else "the requested date"
           | none => "the requested date") ++
          " at our " ++ apt.location ++
          " center has been CONFIRMED. We look forward to seeing you!")
      else if status = "cancelled" then
        some ("Hello " ++ apt.full_name ++
          ", we are sorry to inform you that your appointment with Dr. Vaibbhav Guray on " ++
          (match apt.preferred_date with
           | some d => if d ≠ "" then fmtDate d else "the requested date"
           | none => "the requested date") ++
          " has been CANCELLED. Please contact us to reschedule.")
      else if status = "completed" then
        some ("Hello " ++ apt.full_name ++
          ", thank you for visiting Dr. Vaibbhav Guray today! We hope you have a great day. Feel free to contact us for any follow-up concerns.")
      else none) := by
  cases hd : apt.preferred_date with
  | none => simp [statusMessage, truthyOpt, hd]
  | some d => by_cases hde : d = "" <;> simp [statusMessage, truthyOpt, hd, hde]

/-- C5: phone normalization strips every non-digit character and prepends
the regional prefix `91` exactly when 10 digits remain; in particular the
three concrete normalizations of the specification hold. -/
theorem formatPhone_normalization :
    formatPhone "9876543210" = "919876543210" ∧
    formatPhone "+91 98765 43210" = "919876543210" ∧
    formatPhone "00919876543210" = "00919876543210" ∧
    ∀ s : String,
      formatPhone s =
        if (s.data.filter Char.isDigit).length = 10 then
          "91" ++ String.mk (s.data.filter Char.isDigit)
        else String.mk (s.data.filter Char.isDigit) :=
  ⟨by decide, by decide, by decide, fun s => rfl⟩

/-- C6: with either channel credential missing (absent or empty, i.e. falsy)
`sendWhatsAppMessage` returns `success = false` with the fixed credentials
detail and issues no network request, for every transport, destination and
body. -/
theorem sendWhatsAppMessage_missing_credentials
    (env : WhatsAppEnv) (transport : TransportOutcome)
    (toPhone : Option String) (message : String)
    (h : truthyOpt env.WHATSAPP_TOKEN = false ∨
         truthyOpt env.PHONE_NUMBER_ID = false) :
    sendWhatsAppMessage env transport toPhone message =
      ({ success := false, error := some "Credentials missing" }, none) := by
  rcases h with h | h <;> simp [sendWhatsAppMessage, h]

/-- C6 witness: the missing-credentials short-circuit at a concrete
environment with no access token. -/
theorem sendWhatsAppMessage_missing_credentials_witness :
    sendWhatsAppMessage { WHATSAPP_TOKEN := none, PHONE_NUMBER_ID := some "PID" }
      (.ok "sent") (some "9876543210") "hello" =
      ({ success := false, error := some "Credentials missing" }, none) :=
  sendWhatsAppMessage_missing_credentials _ _ _ _ (Or.inl (by decide))

/-- C7: with credentials configured, `sendWhatsAppMessage` returns normally
on all three transport outcomes — success yields `success = true` with the
provider payload, a non-ok response yields `success = false` with the
provider error payload, and a thrown transport exception is caught and
yields `success = false` with the exception description; in each case the
one request carries the normalized phone and the message body. -/
theorem sendWhatsAppMessage_outcomes
    (env : WhatsAppEnv) (toStr message payload : String)
    (htok : truthyOpt env.WHATSAPP_TOKEN = true)
    (hpid : truthyOpt env.PHONE_NUMBER_ID = true) :
    sendWhatsAppMessage env (.ok payload) (some toStr) message =
      ({ success := true, data := some payload },
        some { destination := formatPhone toStr, body := message }) ∧
    sendWhatsAppMessage env (.httpError payload) (some toStr) message =
      ({ success := false, error := some payload },
        some { destination := formatPhone toStr, body := message }) ∧
    sendWhatsAppMessage env (.exn payload) (some toStr) message =
      ({ success := false, error := some payload },
        some { destination := formatPhone toStr, body := message }) := by
  refine ⟨?_, ?_, ?_⟩ <;> simp [sendWhatsAppMessage, htok, hpid]

/-- C7 witness: the three transport outcomes evaluated at a concrete
configured environment, destination and body. -/
theorem sendWhatsAppMessage_outcomes_witness :
    sendWhatsAppMessage sampleEnv (.ok "MSGID") (some "9876543210") "hi" =
      ({ success := true, data := some "MSGID" },
        some { destination := "919876543210", body := "hi" }) ∧
    sendWhatsAppMessage sampleEnv (.httpError "ERR") (some "9876543210") "hi" =
      ({ success := false, error := some "ERR" },
        some { destination := "919876543210", body := "hi" }) ∧
    sendWhatsAppMessage sampleEnv (.exn "EXN") (some "9876543210") "hi" =
      ({ success := false, error := some "EXN" },
        some { destination := "919876543210", body := "hi" }) := by
  have hfp : formatPhone "9876543210" = "919876543210" := by decide
  have hok := sendWhatsAppMessage_outcomes sampleEnv "9876543210" "hi" "MSGID"
    (by decide) (by decide)
  have herr := sendWhatsAppMessage_outcomes sampleEnv "9876543210" "hi" "ERR"
    (by decide) (by decide)
  have hexn := sendWhatsAppMessage_outcomes sampleEnv "9876543210" "hi" "EXN"
    (by decide) (by decide)
  rw [hfp] at hok herr hexn
  exact ⟨hok.1, herr.2.1, hexn.2.2⟩

/-- C8: a failed refresh preserves the snapshot and all derived counts and
sets the user-facing error; a successful refresh replaces the snapshot
wholesale and clears the error; on every exit path both `loading` and
`refreshing` are false afterwards. -/
theorem fetchAppointments_refresh
    (s : AppState) (e : String) (data : Option (List Appointment)) :
    ((fetchAppointments s (.err e)).appointments = s.appointments ∧
     stats (fetchAppointments s (.err e)).appointments = stats s.appointments ∧
     (fetchAppointments s (.err e)).error =
       some "Failed to load appointments. Please try again.") ∧
    ((fetchAppointments s (.ok data)).appointments = data.getD [] ∧
     (fetchAppointments s (.ok data)).error = none) ∧
    ∀ outcome : FetchOutcome,
      (fetchAppointments s outcome).loading = false ∧
      (fetchAppointments s outcome).refreshing = false := by
  refine ⟨⟨rfl, rfl, rfl⟩, ⟨rfl, rfl⟩, fun outcome => ?_⟩
  cases outcome <;> exact ⟨rfl, rfl⟩

/-- C9: a notification-worthy transition for a locally found record whose
phone is absent, with credentials configured, yields a graceful notifier
failure — the caught `TypeError` becomes `success = false`, no network
request is issued, and the snapshot is still patched (the status write is
not blocked). -/
theorem updateStatus_null_phone_graceful
    (env : WhatsAppEnv) (transport : TransportOutcome)
    (fmtDate : String → String) (appointments : List Appointment)
    (id : Nat) (newStatus : String) (apt0 : Appointment)
    (htok : truthyOpt env.WHATSAPP_TOKEN = true)
    (hpid : truthyOpt env.PHONE_NUMBER_ID = true)
    (hfind : appointments.find? (fun a => a.id == id) = some apt0)
    (hphone : apt0.phone = none)
    (hworthy : newStatus ∈ notifyWorthy) :
    (updateStatus env transport fmtDate appointments id newStatus none).notifyResult =
      some { success := false, error := some nullReplaceTypeError } ∧
    (updateStatus env transport fmtDate appointments id newStatus none).networkRequest =
      none ∧
    (updateStatus env transport fmtDate appointments id newStatus none).snapshot =
      appointments.map (fun apt =>
        if apt.id == id then { apt with status := newStatus } else apt) := by
  have h3 : newStatus = "confirmed" ∨ newStatus = "cancelled" ∨
      newStatus = "completed" := by simpa [notifyWorthy] using hworthy
  rcases h3 with rfl | rfl | rfl <;>
    refine ⟨?_, ?_, ?_⟩ <;>
      simp [updateStatus, hfind, sendStatusUpdateMessage, statusMessage,
        sendWhatsAppMessage, htok, hpid, hphone, notifyWorthy]

/-- C9 witness: the graceful null-phone behaviour at a concrete snapshot
containing one phoneless record confirmed under a configured environment. -/
theorem updateStatus_null_phone_graceful_witness :
    (updateStatus sampleEnv (.ok "sent") (fun d => d)
      [sampleAppointmentNoPhone] 2 "confirmed" none).notifyResult =
      some { success := false, error := some nullReplaceTypeError } ∧
    (updateStatus sampleEnv (.ok "sent") (fun d => d)
      [sampleAppointmentNoPhone] 2 "confirmed" none).networkRequest = none ∧
    (updateStatus sampleEnv (.ok "sent") (fun d => d)
      [sampleAppointmentNoPhone] 2 "confirmed" none).snapshot =
      [sampleAppointmentNoPhone].map (fun apt =>
        if apt.id == 2 then { apt with status := "confirmed" } else apt) :=
  updateStatus_null_phone_graceful sampleEnv (.ok "sent") (fun d => d)
    [sampleAppointmentNoPhone] 2 "confirmed" sampleAppointmentNoPhone
    (by decide) (by decide) rfl rfl (by decide)

/-- C10: phone normalization is idempotent — its output is an all-digit
string whose length is never exactly 10, so normalizing the output again
changes nothing. -/
theorem formatPhone_idempotent (s : String) :
    (formatPhone s).data.all Char.isDigit = true ∧
    (formatPhone s).data.length ≠ 10 ∧
    formatPhone (formatPhone s) = formatPhone s := by
  have hmain : ∀ l : List Char, l = s.data.filter Char.isDigit →
      ((formatPhone s).data.all Char.isDigit = true ∧
       (formatPhone s).data.length ≠ 10 ∧
       formatPhone (formatPhone s) = formatPhone s) := by
    intro l hl
    have hfp : formatPhone s =
        if l.length = 10 then String.mk ('9' :: '1' :: l) else String.mk l := by
      simp [formatPhone, cleanDigits, ← hl]
      rfl
    have hfl : l.filter Char.isDigit = l := by rw [hl, filter_isDigit_idem]
    by_cases h : l.length = 10
    · rw [hfp, if_pos h]
      refine ⟨?_, ?_, ?_⟩
      · show (('9' : Char) :: '1' :: l).all Char.isDigit = true
        simp [List.all_cons, hl, all_isDigit_filter]
      · show (('9' : Char) :: '1' :: l).length ≠ 10
        simp [h]
      · show formatPhone (String.mk ('9' :: '1' :: l)) = String.mk ('9' :: '1' :: l)
        simp [formatPhone, cleanDigits, List.filter_cons, hfl, h]
    · rw [hfp, if_neg h]
      refine ⟨?_, ?_, ?_⟩
      · show l.all Char.isDigit = true
        rw [hl]; exact all_isDigit_filter _
      · exact h
      · show formatPhone (String.mk l) = String.mk l
        simp [formatPhone, cleanDigits, hfl, h]
  exact hmain _ rfl

end AdminChiro
